import Mathlib

/-!
Verification of the restaurant-booking tool functions and the streaming
HTTP endpoint defined in
`01-tutorials/01-fundamentals/03-connecting-with-aws-services/connecting-with-aws-services.ipynb`.

The notebook defines three tools performing single-record CRUD against an
external DynamoDB table, and a FastAPI endpoint that forwards streamed
agent events as HTTP chunks.  We embed the tools as pure functions: the
external table is modelled as an association list keyed by the compound
key (booking_id, restaurant_name), and the possible outcomes of each
boto3 call (a normal response, or a raised exception caught by the
`except` clause) are an explicit parameter of the embedded function, so
the `try`/`except` branching of the source is represented faithfully.
-/

set_option autoImplicit false

namespace Booking

/-- A DynamoDB attribute value: the notebook stores strings and one
integer (`num_guests`). -/
inductive AttrVal where
  | S (s : String)
  | N (n : Int)
  deriving DecidableEq

/-- A DynamoDB item, i.e. the Python dict passed to `put_item` and
returned under the `Item` key of `get_item`: attribute name to value. -/
def Item := List (String × AttrVal)

instance : DecidableEq Item := by
  unfold Item
  infer_instance

/-- The compound primary key of the table: (booking_id, restaurant_name). -/
def Key := String × String

instance : BEq Key := by
  unfold Key
  infer_instance

instance : LawfulBEq Key := by
  unfold Key
  infer_instance

instance : DecidableEq Key := by
  unfold Key
  infer_instance

/-- The external managed table, modelled as an association list from the
compound key to the stored item. -/
def Store := List (Key × Item)

/-- `get_item`: DynamoDB returns the item stored under the key when one
exists (the `Item` member of the response), and a response without an
`Item` member otherwise. -/
def Store.getItem (st : Store) (k : Key) : Option Item :=
  List.lookup k st

/-- `put_item`: DynamoDB creates a new item or fully replaces the item
stored under the same key. -/
def Store.putItem (st : Store) (k : Key) (i : Item) : Store :=
  (k, i) :: List.filter (fun p => !(p.1 == k)) st

/-- `delete_item`: DynamoDB removes the item under the key.  The call is
idempotent: whether or not an item existed, a non-raising call reports
HTTPStatusCode 200 in its ResponseMetadata. -/
def Store.deleteItem (st : Store) (k : Key) : Store × Nat :=
  (List.filter (fun p => !(p.1 == k)) st, 200)

/-- The union return type of `get_booking_details`: the `Item` dict on
the found branch, a plain string on the not-found and exception
branches. -/
inductive ToolRet where
  | item (i : Item)
  | msg (s : String)
  deriving DecidableEq

/-- Whether a `get_booking_details` return value is a dict (as the
declared return annotation promises) rather than a plain string. -/
def ToolRet.isDict : ToolRet → Bool
  | .item _ => true
  | .msg _ => false

/-- Outcome of the `table.get_item` call inside the `try` block: either
a response (whose `Item` member is present or absent), or a raised
exception with its textual description `str(e)`. -/
inductive GetOutcome where
  | resp (item? : Option Item)
  | raise (e : String)

/-- `get_booking_details(booking_id, restaurant_name)`: returns
`response["Item"]` when present, else the not-found string, and on any
exception returns `str(e)`. -/
def get_booking_details (booking_id : String) (restaurant_name : String)
    (o : GetOutcome) : ToolRet :=
  match o with
  | .resp (some i) => .item i
  | .resp none => .msg ("No booking found with ID " ++ booking_id)
  | .raise e => .msg e

/-- `get_booking_details` run against the modelled store on the
non-raising path. -/
def get_booking_details_db (st : Store) (booking_id : String)
    (restaurant_name : String) : ToolRet :=
  get_booking_details booking_id restaurant_name
    (.resp (st.getItem (booking_id, restaurant_name)))

/-- Outcome of the `table.delete_item` call inside the `try` block of
`delete_booking`: a completed response carrying
`response["ResponseMetadata"]["HTTPStatusCode"]`, or a raised exception
with its textual description. -/
inductive DeleteOutcome where
  | completed (status : Nat)
  | raised (e : String)

/-- `delete_booking(booking_id, restaurant_name)`: success message when
the response status is 200, failure message otherwise, and `str(e)` on
an exception. -/
def delete_booking (booking_id : String) (restaurant_name : String)
    (o : DeleteOutcome) : String :=
  match o with
  | .completed status =>
      if status == 200 then
        "Booking with ID " ++ booking_id ++ " deleted successfully"
      else
        "Failed to delete booking with ID " ++ booking_id
  | .raised e => e

/-- `delete_booking` run against the modelled store on the non-raising
path: the store performs the delete and reports its status code. -/
def delete_booking_db (st : Store) (booking_id : String)
    (restaurant_name : String) : Store × String :=
  let r := st.deleteItem (booking_id, restaurant_name)
  (r.1, delete_booking booking_id restaurant_name (.completed r.2))

/-- The structured `ToolResult` dict returned by `create_booking`. -/
structure ToolResult where
  toolUseId : String
  status : String
  content : List String
  deriving DecidableEq

/-- The five input fields of `create_booking`, as extracted from
`tool["input"]`. -/
structure BookingInput where
  date : String
  hour : String
  restaurant_name : String
  guest_name : String
  num_guests : Int
  deriving DecidableEq

/-- Python `s[:8]`: the first 8 characters of the string. -/
def strTake8 (s : String) : String :=
  String.mk (s.data.take 8)

/-- The item written by `create_booking`: note the guest name is stored
under the attribute key `name`, not `guest_name`; every other attribute
keeps its input parameter name. -/
def bookingItem (booking_id : String) (inp : BookingInput) : Item :=
  [("booking_id", .S booking_id),
   ("restaurant_name", .S inp.restaurant_name),
   ("date", .S inp.date),
   ("name", .S inp.guest_name),
   ("hour", .S inp.hour),
   ("num_guests", .N inp.num_guests)]

/-- Outcome of the `table.put_item` call inside the `try` block of
`create_booking`: it either completes, or raises with `str(e)`. -/
inductive PutOutcome where
  | ok
  | raised (e : String)

/-- `create_booking(tool, ...)`: draws `booking_id = str(uuid.uuid4())[:8]`
(the uuid draw is the explicit `uuidStr` parameter), writes the item and
returns a structured success result carrying the new id, or on an
exception leaves the store unchanged and returns a structured result
with status `error` carrying `str(e)`. -/
def create_booking (tool_use_id : String) (inp : BookingInput)
    (uuidStr : String) (st : Store) (o : PutOutcome) : Store × ToolResult :=
  let booking_id := strTake8 uuidStr
  match o with
  | .ok =>
      (st.putItem (booking_id, inp.restaurant_name) (bookingItem booking_id inp),
       { toolUseId := tool_use_id
         status := "success"
         content := ["Reservation created with booking id: " ++ booking_id] })
  | .raised e =>
      (st, { toolUseId := tool_use_id, status := "error", content := [e] })

end Booking

namespace Streaming

/-- One streamed agent event, modelled as the Python dict it is: a map
from recognized keys (`data`, `current_tool_use`, `init_event_loop`,
`message`, `force_stop`, ...) to their textual payloads. -/
def Event := List (String × String)

/-- An event carries text exactly when its dict has a `data` key. -/
def Event.dataField (e : Event) : Option String :=
  List.lookup "data" e

/-- The body of `generate()` inside the `/stream` endpoint: iterate over
the event stream and `yield event["data"]` for each event that has a
`data` key, skipping every other event. -/
def generate : List Event → List String
  | [] => []
  | e :: rest =>
      match e.dataField with
      | some d => d :: generate rest
      | none => generate rest

/-- The agent event stream as observed by the `async for` loop: the
events produced before the iteration ends, and optionally the textual
description of an exception raised during iteration. -/
structure EventStream where
  events : List Event
  fault : Option String

/-- `generate()` including its `except` clause: the forwarded chunks,
followed by one final `Error: ...` chunk when the iteration raised. -/
def generateAll (s : EventStream) : List String :=
  generate s.events ++
    (match s.fault with
     | some e => ["Error: " ++ e]
     | none => [])

/-- The `/stream` endpoint returns
`StreamingResponse(generate(), media_type="text/plain")`: the default
HTTP status 200 together with the chunk sequence; the status does not
depend on whether the generator hit an exception. -/
def stream_response (s : EventStream) : Nat × List String :=
  (200, generateAll s)

end Streaming

namespace Booking

/-- Looking up a key after `put_item` of that key returns the stored item. -/
theorem getItem_putItem_self (st : Store) (k : Key) (i : Item) :
    (st.putItem k i).getItem k = some i := by
  simp [Store.getItem, Store.putItem, List.lookup]

/-- Filtering out every entry with key `k` makes lookup of `k` fail. -/
theorem lookup_filter_ne (k : Key) (st : Store) :
    List.lookup k (List.filter (fun p => !(p.1 == k)) st) = none := by
  induction st with
  | nil => rfl
  | cons p rest ih =>
      by_cases h : p.1 == k
      · simp [List.filter, h, ih]
      · simp only [List.filter, h, Bool.not_false]
        rw [List.lookup]
        have hk : (k == p.1) = false := by
          cases p
          simp_all [BEq.comm]
        simp [hk, ih]

/-- Looking up a key after `delete_item` of that key fails. -/
theorem getItem_deleteItem_self (st : Store) (k : Key) :
    (st.deleteItem k).1.getItem k = none := by
  simp [Store.deleteItem, Store.getItem, lookup_filter_ne]

/-- The two non-raising messages of `delete_booking` are distinct strings,
whatever the booking id. -/
theorem success_msg_ne_failure_msg (bid : String) :
    ("Booking with ID " ++ bid ++ " deleted successfully") ≠
      ("Failed to delete booking with ID " ++ bid) := by
  intro h
  have hl := congrArg String.length h
  have h1 : "Failed to delete booking with ID ".length = 33 := rfl
  have h2 : "Booking with ID ".length = 16 := rfl
  have h3 : " deleted successfully".length = 21 := rfl
  simp [String.length_append, h1, h2, h3] at hl
  omega

end Booking

namespace Booking

/-- C3: `get_booking_details` returns the stored record itself when the
compound key is present, the human-readable string
`No booking found with ID <id>` when it is absent, and, when the store
operation raises, the textual description of the exception instead of
propagating it. -/
theorem get_booking_details_branches (bid r e : String) (i : Item) :
    get_booking_details bid r (.resp (some i)) = .item i ∧
    get_booking_details bid r (.resp none) =
      .msg ("No booking found with ID " ++ bid) ∧
    get_booking_details bid r (.raise e) = .msg e :=
  ⟨rfl, rfl, rfl⟩

/-- C10: `get_booking_details` returns a plain string (not a dict) on
both the key-absent branch and the exception branch, despite its
declared `dict` return annotation; only the key-present branch returns
a dict. -/
theorem get_booking_details_return_shape (bid r e : String) (i : Item) :
    (get_booking_details bid r (.resp none)).isDict = false ∧
    (get_booking_details bid r (.raise e)).isDict = false ∧
    (get_booking_details bid r (.resp (some i))).isDict = true :=
  ⟨rfl, rfl, rfl⟩

/-- C7: on a non-raising `delete_item` call, `delete_booking` returns the
success message exactly when the reported HTTP status is 200 and the
(distinct) failure message otherwise; on an exception it returns
`str(e)` rather than propagating. -/
theorem delete_booking_outcome (bid r e : String) (s : Nat) :
    (delete_booking bid r (.completed s) =
      if s = 200 then "Booking with ID " ++ bid ++ " deleted successfully"
      else "Failed to delete booking with ID " ++ bid) ∧
    ("Booking with ID " ++ bid ++ " deleted successfully") ≠
      ("Failed to delete booking with ID " ++ bid) ∧
    delete_booking bid r (.raised e) = e := by
  refine ⟨?_, success_msg_ne_failure_msg bid, rfl⟩
  by_cases h : s = 200
  · simp [delete_booking, h]
  · simp [delete_booking, h]

/-- C4: the lookup and delete tools convert a caught fault into a plain
string carried on the same channel as their legitimate results — at
suitable fault texts the fault return is literally equal to a success
return — while `create_booking` alone reports faults through a result
tagged `error`, distinct from the `success` tag. -/
theorem error_channel_asymmetry (bid r e tid uuid : String)
    (inp : BookingInput) (st : Store) :
    get_booking_details bid r (.raise e) = .msg e ∧
    delete_booking bid r (.raised e) = e ∧
    get_booking_details bid r (.raise ("No booking found with ID " ++ bid)) =
      get_booking_details bid r (.resp none) ∧
    delete_booking bid r
        (.raised ("Booking with ID " ++ bid ++ " deleted successfully")) =
      delete_booking bid r (.completed 200) ∧
    ((create_booking tid inp uuid st (.raised e)).2).status = "error" ∧
    ((create_booking tid inp uuid st .ok).2).status = "success" ∧
    ("error" : String) ≠ "success" := by
  refine ⟨rfl, rfl, rfl, by simp [delete_booking], rfl, rfl, by decide⟩

/-- C9: the record persisted by `create_booking` stores the supplied
guest name under the attribute key `name` — there is no `guest_name`
attribute — while every other attribute keeps its input parameter name,
and the lookup tool returns exactly this record. -/
theorem guest_name_stored_under_name (bid tid uuid : String)
    (inp : BookingInput) (st : Store) :
    List.lookup "name" (bookingItem bid inp) = some (.S inp.guest_name) ∧
    List.lookup "guest_name" (bookingItem bid inp) = none ∧
    List.lookup "booking_id" (bookingItem bid inp) = some (.S bid) ∧
    List.lookup "restaurant_name" (bookingItem bid inp) =
      some (.S inp.restaurant_name) ∧
    List.lookup "date" (bookingItem bid inp) = some (.S inp.date) ∧
    List.lookup "hour" (bookingItem bid inp) = some (.S inp.hour) ∧
    List.lookup "num_guests" (bookingItem bid inp) =
      some (.N inp.num_guests) ∧
    (create_booking tid inp uuid st .ok).1.getItem
        (strTake8 uuid, inp.restaurant_name) =
      some (bookingItem (strTake8 uuid) inp) :=
  ⟨rfl, rfl, rfl, rfl, rfl, rfl, rfl,
    getItem_putItem_self st (strTake8 uuid, inp.restaurant_name)
      (bookingItem (strTake8 uuid) inp)⟩

end Booking

namespace Booking

/-- C1: conditioned on the uuid draw producing an identifier not already
keyed in the store (which the random generator is relied upon for),
`create_booking` returns an identifier not previously present, writes
the record under the compound key (booking_id, restaurant_name), and a
subsequent `get_booking_details` with that identifier and restaurant
name returns a record carrying all five supplied input values. -/
theorem create_then_get_roundtrip (tid uuid : String) (inp : BookingInput)
    (st : Store)
    (hfresh : st.getItem (strTake8 uuid, inp.restaurant_name) = none) :
    st.getItem (strTake8 uuid, inp.restaurant_name) = none ∧
    (create_booking tid inp uuid st .ok).1.getItem
        (strTake8 uuid, inp.restaurant_name) =
      some (bookingItem (strTake8 uuid) inp) ∧
    get_booking_details_db (create_booking tid inp uuid st .ok).1
        (strTake8 uuid) inp.restaurant_name =
      .item (bookingItem (strTake8 uuid) inp) ∧
    List.lookup "date" (bookingItem (strTake8 uuid) inp) =
      some (.S inp.date) ∧
    List.lookup "hour" (bookingItem (strTake8 uuid) inp) =
      some (.S inp.hour) ∧
    List.lookup "restaurant_name" (bookingItem (strTake8 uuid) inp) =
      some (.S inp.restaurant_name) ∧
    List.lookup "name" (bookingItem (strTake8 uuid) inp) =
      some (.S inp.guest_name) ∧
    List.lookup "num_guests" (bookingItem (strTake8 uuid) inp) =
      some (.N inp.num_guests) := by
  have hput : (create_booking tid inp uuid st .ok).1.getItem
      (strTake8 uuid, inp.restaurant_name) =
      some (bookingItem (strTake8 uuid) inp) :=
    getItem_putItem_self st (strTake8 uuid, inp.restaurant_name)
      (bookingItem (strTake8 uuid) inp)
  have hget : get_booking_details_db (create_booking tid inp uuid st .ok).1
      (strTake8 uuid) inp.restaurant_name =
      .item (bookingItem (strTake8 uuid) inp) := by
    rw [get_booking_details_db, hput]
    rfl
  exact ⟨hfresh, hput, hget, rfl, rfl, rfl, rfl, rfl⟩

/-- Sample input used by concrete witnesses: the example scenario of the
spec. -/
def sampleInput : BookingInput :=
  { date := "2025-12-01", hour := "20:00", restaurant_name := "Rice & Spice",
    guest_name := "Anna", num_guests := 4 }

/-- A concrete canonical uuid4 text (36 characters). -/
def sampleUuid : String := "123e4567-e89b-12d3-a456-426614174000"

/-- A concrete prior store content, not containing the sample id. -/
def sampleStore : Store := [(("zzzzzzzz", "Rice & Spice"), [])]

/-- Witness for C1 at the concrete sample input. -/
theorem create_then_get_roundtrip_witness :
    sampleStore.getItem (strTake8 sampleUuid, sampleInput.restaurant_name) =
      none ∧
    (sampleStore.getItem (strTake8 sampleUuid, sampleInput.restaurant_name) =
      none ∧
    (create_booking "tooluse-1" sampleInput sampleUuid sampleStore .ok).1.getItem
        (strTake8 sampleUuid, sampleInput.restaurant_name) =
      some (bookingItem (strTake8 sampleUuid) sampleInput) ∧
    get_booking_details_db
        (create_booking "tooluse-1" sampleInput sampleUuid sampleStore .ok).1
        (strTake8 sampleUuid) sampleInput.restaurant_name =
      .item (bookingItem (strTake8 sampleUuid) sampleInput) ∧
    List.lookup "date" (bookingItem (strTake8 sampleUuid) sampleInput) =
      some (.S sampleInput.date) ∧
    List.lookup "hour" (bookingItem (strTake8 sampleUuid) sampleInput) =
      some (.S sampleInput.hour) ∧
    List.lookup "restaurant_name"
        (bookingItem (strTake8 sampleUuid) sampleInput) =
      some (.S sampleInput.restaurant_name) ∧
    List.lookup "name" (bookingItem (strTake8 sampleUuid) sampleInput) =
      some (.S sampleInput.guest_name) ∧
    List.lookup "num_guests" (bookingItem (strTake8 sampleUuid) sampleInput) =
      some (.N sampleInput.num_guests)) :=
  ⟨by decide,
   create_then_get_roundtrip "tooluse-1" sampleUuid sampleInput sampleStore
     (by decide)⟩

end Booking

namespace Booking

/-- Counterexample to C2 as stated: deleting the pair (b1, Rice & Spice)
from the empty store — a nonexistent booking — returns the success
message, not a failure indication (the delete-item call is idempotent
and reports HTTP 200 whether or not the key existed). -/
theorem delete_nonexistent_returns_success_message :
    Store.getItem [] ("b1", "Rice & Spice") = none ∧
    (delete_booking_db [] "b1" "Rice & Spice").2 =
      "Booking with ID b1 deleted successfully" ∧
    (delete_booking_db [] "b1" "Rice & Spice").2 ≠
      "Failed to delete booking with ID b1" :=
  ⟨rfl, rfl, by decide⟩

/-- C2 amended: `delete_booking` on any pair removes the record (if one
was present) so that a subsequent `get_booking_details` with the same
pair reports not found; and the non-raising path always returns the
success message — also on a nonexistent pair, where no exception is
raised but no failure indication is produced either. -/
theorem delete_then_get_not_found (st : Store) (bid r : String) :
    (delete_booking_db st bid r).1.getItem (bid, r) = none ∧
    get_booking_details_db (delete_booking_db st bid r).1 bid r =
      .msg ("No booking found with ID " ++ bid) ∧
    (delete_booking_db st bid r).2 =
      "Booking with ID " ++ bid ++ " deleted successfully" := by
  have h0 : (delete_booking_db st bid r).1.getItem (bid, r) = none :=
    getItem_deleteItem_self st (bid, r)
  refine ⟨h0, ?_, rfl⟩
  rw [get_booking_details_db, h0]
  rfl

/-- C8: on its non-raising path `create_booking` returns a structured
success result whose text carries the generated booking identifier, and
that identifier — the first 8 characters of the canonical 36-character
uuid4 text — is exactly 8 characters long. -/
theorem create_booking_success_id (tid uuid : String) (inp : BookingInput)
    (st : Store) (h : uuid.length = 36) :
    (create_booking tid inp uuid st .ok).2 =
      { toolUseId := tid, status := "success",
        content :=
          ["Reservation created with booking id: " ++ strTake8 uuid] } ∧
    (strTake8 uuid).length = 8 := by
  constructor
  · rfl
  · have hd : uuid.data.length = 36 := h
    simp [strTake8, String.length, List.length_take, hd]

/-- Witness for C8 at the concrete sample input. -/
theorem create_booking_success_id_witness :
    sampleUuid.length = 36 ∧
    ((create_booking "tooluse-1" sampleInput sampleUuid sampleStore .ok).2 =
      { toolUseId := "tooluse-1", status := "success",
        content :=
          ["Reservation created with booking id: " ++ strTake8 sampleUuid] } ∧
    (strTake8 sampleUuid).length = 8) :=
  ⟨by decide,
   create_booking_success_id "tooluse-1" sampleUuid sampleInput sampleStore
     (by decide)⟩

end Booking

namespace Streaming

/-- C5: the consumption loop of the `/stream` endpoint forwards exactly
the events carrying a `data` field, as their `data` payloads, omitting
every other event and preserving order; with a non-raising stream these
are exactly the response chunks. -/
theorem generate_forwards_exactly_data_events (evs : List Event) :
    generate evs =
      (evs.filter (fun e => (e.dataField).isSome)).map
        (fun e => (e.dataField).getD "") ∧
    (stream_response { events := evs, fault := none }).2 =
      (evs.filter (fun e => (e.dataField).isSome)).map
        (fun e => (e.dataField).getD "") := by
  have h : generate evs =
      (evs.filter (fun e => (e.dataField).isSome)).map
        (fun e => (e.dataField).getD "") := by
    induction evs with
    | nil => rfl
    | cons e rest ih =>
        cases hd : e.dataField with
        | some d => simp [generate, hd, List.filter, ih]
        | none => simp [generate, hd, List.filter, ih]
  exact ⟨h, by simp [stream_response, generateAll, h]⟩

/-- C6: an exception raised while iterating the agent event stream is
caught and emitted as one final `Error: ...` chunk after the forwarded
text chunks, and the HTTP status of the streaming response is 200
regardless of the fault. -/
theorem stream_fault_as_final_chunk (evs : List Event) (err : String) :
    stream_response { events := evs, fault := some err } =
      (200, generate evs ++ ["Error: " ++ err]) ∧
    ((stream_response { events := evs, fault := some err }).2).getLast? =
      some ("Error: " ++ err) ∧
    (∀ s : EventStream, (stream_response s).1 = 200) := by
  refine ⟨rfl, ?_, fun s => rfl⟩
  show (generate evs ++ ["Error: " ++ err]).getLast? =
    some ("Error: " ++ err)
  simp

end Streaming
